import Mathlib

/-!
Shallow embedding of the bag-of-tasks REST backend.

The repository holds four revisions of the same Express/Supabase server:

* revA : first document of src/index.js
* v2   : second document of src/index.js (the minutes-to-seconds revision)
* p0   : src/unnamed/part_000
* p1   : src/unnamed/part_001

State is the pair of persisted tables: the tasks table and the singleton
stats row (id = "default").  Each awaited gateway (Supabase) call is
embedded as one atomic step on that state; the update of completed_tasks
through supabase.rpc increment x = 1 is embedded as an atomic server-side
increment of the stats row, performed in the single gateway call the
handlers issue.  Handlers are state transformers returning a response
value together with the new state; a gateway failure of the task delete,
whose error each completion handler checks explicitly, is injected
through a boolean parameter.
-/

namespace BagOfTasks

/-- Row of the tasks table: id, title, duration, tags, created_at. -/
structure Task where
  id : String
  title : String
  duration : ℚ
  tags : List String
  created_at : ℕ
deriving DecidableEq

/-- Persisted state: the tasks table and the completed_tasks field of the
stats row with id = "default" (none when that row is absent). -/
structure Store where
  tasks : List Task
  stats : Option ℕ
deriving DecidableEq

/-- Gateway select of a single task row by id
(from tasks select star eq id, single). -/
def findTask (s : Store) (tid : String) : Option Task :=
  s.tasks.find? fun u => u.id == tid

/-- Gateway delete of the task rows matching an id; a no-op reporting no
error when no row matches (from tasks delete eq id). -/
def removeTask (s : Store) (tid : String) : Store :=
  { s with tasks := s.tasks.filter fun u => u.id != tid }

/-- Gateway update of the stats row: atomic server-side increment of
completed_tasks (update completed_tasks to rpc increment x = 1 where
id = "default"); a no-op when the row is absent, in which case the call
reports no matching row and yields no data. -/
def incStats (s : Store) : Store :=
  { s with stats := s.stats.map (· + 1) }

/-- JavaScript request-field values exercised by the handlers. -/
inductive JSVal where
  | undef
  | num (q : ℚ)
  | str (s : String)
deriving DecidableEq

/-- JavaScript truthiness of a request-field value: undefined, the number
zero and the empty string are falsy. -/
def JSVal.truthy : JSVal → Bool
  | .undef => false
  | .num q => decide (q ≠ 0)
  | .str t => decide (t ≠ "")

/-- Numeric value of a request field as the handlers consume it.  Only
numeric payloads are exercised by the theorems below; other payloads are
mapped to zero. -/
def JSVal.toNumber : JSVal → ℚ
  | .num q => q
  | _ => 0

/-- JavaScript Math.round (q * 60), the minutes-to-seconds conversion of
the v2 revision: the nearest integer to q * 60 with ties toward positive
infinity, that is the floor of q * 60 + 1/2, computed here as the floor
division (120 num + den) fdiv (2 den) on the rational's numerator and
denominator so that it evaluates by kernel reduction; the equality with
the floor of q * 60 + 1/2 is proved below. -/
def minutesToSeconds (q : ℚ) : ℤ :=
  (120 * q.num + (q.den : ℤ)).fdiv (2 * (q.den : ℤ))

/-- JavaScript parseInt applied to the decimal rendering of a number:
truncation toward zero. -/
def jsTrunc (q : ℚ) : ℤ :=
  q.num.tdiv (q.den : ℤ)

/-- Body of POST /api/tasks: title, duration, and the tags field (none
when the field is omitted from the request body). -/
structure AddReq where
  title : String
  duration : JSVal
  tags : Option (List String)
deriving DecidableEq

/-- Outcome of POST /api/tasks. -/
inductive AddResult where
  | badRequest
  | created (t : Task)
deriving DecidableEq

/-- POST /api/tasks in revA: the destructuring default for tags applies
only when the field is absent, validation rejects a falsy title or a
falsy duration, and the duration is inserted as given. -/
def addTask_revA (s : Store) (r : AddReq) (genId : String) (now : ℕ) :
    AddResult × Store :=
  let tags := r.tags.getD ["general"]
  if r.title = "" ∨ r.duration.truthy = false then (.badRequest, s)
  else
    let t : Task := ⟨genId, r.title, r.duration.toNumber, tags, now⟩
    (.created t, { s with tasks := t :: s.tasks })

/-- POST /api/tasks in v2 (the minutes-to-seconds revision): the
destructuring default for tags applies only when the field is absent,
validation rejects a falsy title or an undefined duration, and decimal
minutes are converted to integer seconds with Math.round of
parseFloat duration times 60. -/
def addTask_v2 (s : Store) (r : AddReq) (genId : String) (now : ℕ) :
    AddResult × Store :=
  let tags := r.tags.getD ["general"]
  if r.title = "" ∨ r.duration = .undef then (.badRequest, s)
  else
    let secs : ℤ := minutesToSeconds r.duration.toNumber
    let t : Task := ⟨genId, r.title, (secs : ℚ), tags, now⟩
    (.created t, { s with tasks := t :: s.tasks })

/-- POST /api/tasks in p0: validation rejects a falsy title or a falsy
duration, tags are normalized to the supplied list when it is a non-empty
array and to the general default otherwise, and the duration is stored
through parseInt. -/
def addTask_p0 (s : Store) (r : AddReq) (genId : String) (now : ℕ) :
    AddResult × Store :=
  if r.title = "" ∨ r.duration.truthy = false then (.badRequest, s)
  else
    let tags :=
      match r.tags with
      | some l => if l.isEmpty then ["general"] else l
      | none => ["general"]
    let t : Task := ⟨genId, r.title, ((jsTrunc r.duration.toNumber : ℤ) : ℚ), tags, now⟩
    (.created t, { s with tasks := t :: s.tasks })

/-- POST /api/tasks in p1: validation rejects a falsy title or a falsy
duration, tags are normalized as in p0, and the duration is inserted as
given. -/
def addTask_p1 (s : Store) (r : AddReq) (genId : String) (now : ℕ) :
    AddResult × Store :=
  if r.title = "" ∨ r.duration.truthy = false then (.badRequest, s)
  else
    let tags :=
      match r.tags with
      | some l => if l.isEmpty then ["general"] else l
      | none => ["general"]
    let t : Task := ⟨genId, r.title, r.duration.toNumber, tags, now⟩
    (.created t, { s with tasks := t :: s.tasks })

/-- Outcome of POST /api/tasks/complete in revA, v2 and p0. -/
inductive CompleteResult where
  | badRequest
  | notFound
  | ok (completedTasks : ℕ) (task : Task)
  | serverError (msg : String)
deriving DecidableEq

/-- POST /api/tasks/complete as written identically in revA and v2: after
the existence lookup (404 with no mutation when the id matches no task)
the stats row is incremented, the error of that update is not checked and
only its data is captured, then the task is deleted (a delete error is
thrown into the catch block), and the response finally reads
completed_tasks from the captured stats data, which raises a TypeError
caught by the same catch block whenever the stats row was absent.
delFails injects a gateway failure of the delete call. -/
def completeTask_index (s : Store) (tid : String) (delFails : Bool) :
    CompleteResult × Store :=
  if tid = "" then (.badRequest, s)
  else
    match findTask s tid with
    | none => (.notFound, s)
    | some task =>
      let s1 := incStats s
      let statsData : Option ℕ := s1.stats
      if delFails then (.serverError "Failed to complete task", s1)
      else
        let s2 := removeTask s1 tid
        match statsData with
        | none => (.serverError "Failed to complete task", s2)
        | some n => (.ok n task, s2)

/-- POST /api/tasks/complete in p0: existence lookup (404 with no
mutation when the id matches no task), then the increment of the stats
row; when that update reports no matching row the stats row is created
with completed_tasks = 1; in either branch the task is then deleted and
the counter is reported.  delFails injects a gateway failure of the
delete call. -/
def completeTask_p0 (s : Store) (tid : String) (delFails : Bool) :
    CompleteResult × Store :=
  if tid = "" then (.badRequest, s)
  else
    match findTask s tid with
    | none => (.notFound, s)
    | some task =>
      match s.stats with
      | none =>
        let s1 : Store := { s with stats := some 1 }
        if delFails then (.serverError "Failed to complete task", s1)
        else (.ok 1 task, removeTask s1 tid)
      | some c =>
        let s1 : Store := { s with stats := some (c + 1) }
        if delFails then (.serverError "Failed to complete task", s1)
        else (.ok (c + 1) task, removeTask s1 tid)

/-- Outcome of POST /api/tasks/complete in p1; its success response
carries only the counter, not the completed task. -/
inductive CompleteResult1 where
  | badRequest
  | ok (completedTasks : ℕ)
  | serverError (msg : String)
deriving DecidableEq

/-- POST /api/tasks/complete in p1: no existence lookup at all; the stats
row is incremented (an error of that update, in particular the absence of
the row, is thrown), then the delete call runs (a no-op when the id
matches no row) and the response reports the incremented counter. -/
def completeTask_p1 (s : Store) (tid : String) (delFails : Bool) :
    CompleteResult1 × Store :=
  if tid = "" then (.badRequest, s)
  else
    match s.stats with
    | none => (.serverError "Failed to complete task", s)
    | some c =>
      let s1 : Store := { s with stats := some (c + 1) }
      if delFails then (.serverError "Failed to complete task", s1)
      else (.ok (c + 1), removeTask s1 tid)

/-- Outcome of DELETE /api/tasks/:id in p0. -/
inductive DeleteResult where
  | notFound
  | ok (deletedTask : Task)
deriving DecidableEq

/-- DELETE /api/tasks/:id in p0: existence lookup (404 when the id
matches no task), then the unconditional delete, answering with the
removed task's prior state. -/
def deleteTask_p0 (s : Store) (tid : String) : DeleteResult × Store :=
  match findTask s tid with
  | none => (.notFound, s)
  | some task => (.ok task, removeTask s tid)

/-- Outcome of DELETE /api/tasks/:id in p1. -/
inductive DeleteResult1 where
  | ok
  | serverError (msg : String)
deriving DecidableEq

/-- DELETE /api/tasks/:id in p1: no existence lookup; the gateway delete
call removes whatever rows carry the id (possibly none) and the handler
answers that the task was deleted successfully. -/
def deleteTask_p1 (s : Store) (tid : String) : DeleteResult1 × Store :=
  (.ok, removeTask s tid)

/-- Outcome of GET /api/tasks/stats. -/
inductive StatsResult where
  | ok (completedTasks : ℕ)
  | serverError (msg : String)
deriving DecidableEq

/-- GET /api/tasks/stats in p0, translated branch by branch: the
single-row select yields an error exactly when the row is absent (with a
null data), the error is thrown first, so the subsequent null-data branch
that would lazily create the row at zero is unreachable. -/
def getStats_p0 (s : Store) : StatsResult × Store :=
  let data := s.stats
  if data.isNone then (.serverError "Failed to fetch stats", s)
  else
    match data with
    | none => (.ok 0, { s with stats := some 0 })
    | some c => (.ok c, s)

/-- GET /api/tasks/stats in p1 (identical in revA and v2): the error of
the single-row select is thrown when the stats row is absent. -/
def getStats_p1 (s : Store) : StatsResult × Store :=
  match s.stats with
  | none => (.serverError "Failed to fetch stats", s)
  | some c => (.ok c, s)

/-! Basic facts about the store operations. -/

lemma find?_filter_id_self (l : List Task) (tid : String) :
    (l.filter fun u => u.id != tid).find? (fun u => u.id == tid) = none := by
  induction l with
  | nil => rfl
  | cons a l ih =>
    by_cases h : a.id = tid
    · simp [List.filter_cons, h, ih]
    · simp [List.filter_cons, List.find?_cons, h, ih]

lemma find?_filter_id_ne (l : List Task) {a b : String} (h : a ≠ b) :
    (l.filter fun u => u.id != b).find? (fun u => u.id == a) =
      l.find? (fun u => u.id == a) := by
  induction l with
  | nil => rfl
  | cons t l ih =>
    by_cases htb : t.id = b
    · have hb : (t.id != b) = false := by simp [htb]
      have ha : (t.id == a) = false := by
        simp [htb, Ne.symm h]
      rw [List.filter_cons, hb, if_neg (by simp), List.find?_cons, ha, ih]
    · have hb : (t.id != b) = true := by simp [htb]
      rw [List.filter_cons, hb, if_pos rfl, List.find?_cons, List.find?_cons]
      by_cases hta : t.id = a
      · have ha : (t.id == a) = true := by simp [hta]
        rw [ha]
      · have ha : (t.id == a) = false := by simp [hta]
        rw [ha, ih]

lemma findTask_removeTask_self (s : Store) (tid : String) :
    findTask (removeTask s tid) tid = none :=
  find?_filter_id_self s.tasks tid

lemma findTask_removeTask_ne (s : Store) {a b : String} (h : a ≠ b) :
    findTask (removeTask s b) a = findTask s a :=
  find?_filter_id_ne s.tasks h

lemma mem_removeTask (s : Store) (tid : String) (u : Task) :
    u ∈ (removeTask s tid).tasks ↔ u ∈ s.tasks ∧ u.id ≠ tid := by
  simp [removeTask, List.mem_filter]

lemma minutesToSeconds_eq_floor (q : ℚ) :
    minutesToSeconds q = ⌊q * 60 + 1 / 2⌋ := by
  have hden : ((q.den : ℚ)) ≠ 0 := Nat.cast_ne_zero.mpr q.den_nz
  have h2den : ((2 * q.den : ℕ) : ℚ) ≠ 0 :=
    Nat.cast_ne_zero.mpr (Nat.mul_ne_zero (by norm_num) q.den_nz)
  have hq : q * (q.den : ℚ) = (q.num : ℚ) := by
    nth_rewrite 1 [← Rat.num_div_den q]
    exact div_mul_cancel₀ _ hden
  have key : q * 60 + 1 / 2 =
      ((120 * q.num + (q.den : ℤ) : ℤ) : ℚ) / ((2 * q.den : ℕ) : ℚ) := by
    rw [eq_div_iff h2den]
    push_cast
    linear_combination 120 * hq
  rw [key, Rat.floor_intCast_div_natCast]
  unfold minutesToSeconds
  rw [Int.fdiv_eq_ediv _ (by positivity)]
  norm_cast

/-! Interleaving semantics for two racing completion requests.  Each
awaited gateway call of a completion handler is one atomic step; this is
the granularity at which two concurrent requests of the event-loop server
can interleave, and the counter increment is a single such call. -/

/-- One awaited gateway call of the completion handler. -/
inductive Act where
  | lookup (tid : String)
  | incCounter
  | delTask (tid : String)
deriving DecidableEq

/-- The gateway calls of one completion request in handler order (revA,
v2 and p0 with the stats row present): existence lookup, atomic counter
increment, task delete. -/
def completeProg (tid : String) : List Act :=
  [Act.lookup tid, Act.incCounter, Act.delTask tid]

/-- One atomic step of a request: a failed lookup ends the request with
its 404 before any mutation; increment and delete perform the
corresponding gateway mutation.  Returns the new store and the calls
still to run. -/
def threadStep (s : Store) : List Act → Store × List Act
  | [] => (s, [])
  | Act.lookup tid :: rest =>
    if (findTask s tid).isSome then (s, rest) else (s, [])
  | Act.incCounter :: rest => (incStats s, rest)
  | Act.delTask tid :: rest => (removeTask s tid, rest)

/-- Interleaved execution of two requests under a schedule: true steps
the first request, false the second; a finished request is left
unchanged. -/
def exec : Store → List Act → List Act → List Bool → Store × List Act × List Act
  | s, p1, p2, [] => (s, p1, p2)
  | s, p1, p2, true :: rest => exec (threadStep s p1).1 (threadStep s p1).2 p2 rest
  | s, p1, p2, false :: rest => exec (threadStep s p2).1 p1 (threadStep s p2).2 rest

/-- Progress of one completion request on task tid, k counting the
increments this request has performed so far: before the lookup, before
the increment, before the delete, or done. -/
def ThreadSt (s : Store) (tid : String) (p : List Act) (k : ℕ) : Prop :=
  (p = completeProg tid ∧ (findTask s tid).isSome = true ∧ k = 0) ∨
  (p = [Act.incCounter, Act.delTask tid] ∧ (findTask s tid).isSome = true ∧ k = 0) ∨
  (p = [Act.delTask tid] ∧ (findTask s tid).isSome = true ∧ k = 1) ∨
  (p = [] ∧ findTask s tid = none ∧ k = 1)

/-- Invariant of two racing completions of distinct tasks: each request
is at one of its four stages and the counter equals its initial value
plus the increments performed so far. -/
def RaceInv (t1 t2 : String) (c0 : ℕ) (s : Store) (p1 p2 : List Act) : Prop :=
  ∃ k1 k2 : ℕ, ThreadSt s t1 p1 k1 ∧ ThreadSt s t2 p2 k2 ∧
    s.stats = some (c0 + k1 + k2)

lemma threadSt_incStats {s : Store} {tid : String} {p : List Act} {k : ℕ}
    (h : ThreadSt s tid p k) : ThreadSt (incStats s) tid p k := h

lemma threadSt_removeTask {s : Store} {tid : String} {p : List Act} {k : ℕ}
    (rid : String) (hne : tid ≠ rid) (h : ThreadSt s tid p k) :
    ThreadSt (removeTask s rid) tid p k := by
  unfold ThreadSt at h ⊢
  rw [findTask_removeTask_ne s hne]
  exact h

lemma raceInv_step_left (t1 t2 : String) (c0 : ℕ) (hne : t1 ≠ t2)
    (s : Store) (p1 p2 : List Act) (h : RaceInv t1 t2 c0 s p1 p2) :
    RaceInv t1 t2 c0 (threadStep s p1).1 (threadStep s p1).2 p2 := by
  obtain ⟨k1, k2, h1, h2, hs⟩ := h
  rcases h1 with ⟨hp, hf, hk⟩ | ⟨hp, hf, hk⟩ | ⟨hp, hf, hk⟩ | ⟨hp, hf, hk⟩
  · subst hp; subst hk
    have hstep : threadStep s (completeProg t1) =
        (s, [Act.incCounter, Act.delTask t1]) := by
      simp [threadStep, completeProg, hf]
    rw [hstep]
    exact ⟨0, k2, Or.inr (Or.inl ⟨rfl, hf, rfl⟩), h2, hs⟩
  · subst hp; subst hk
    have hstep : threadStep s [Act.incCounter, Act.delTask t1] =
        (incStats s, [Act.delTask t1]) := rfl
    rw [hstep]
    refine ⟨1, k2, Or.inr (Or.inr (Or.inl ⟨rfl, hf, rfl⟩)),
      threadSt_incStats h2, ?_⟩
    show s.stats.map (· + 1) = some (c0 + 1 + k2)
    rw [hs]
    simp [Option.map_some]
    omega
  · subst hp; subst hk
    have hstep : threadStep s [Act.delTask t1] = (removeTask s t1, []) := rfl
    rw [hstep]
    exact ⟨1, k2,
      Or.inr (Or.inr (Or.inr ⟨rfl, findTask_removeTask_self s t1, rfl⟩)),
      threadSt_removeTask t1 (Ne.symm hne) h2, hs⟩
  · subst hp; subst hk
    have hstep : threadStep s [] = (s, []) := rfl
    rw [hstep]
    exact ⟨1, k2, Or.inr (Or.inr (Or.inr ⟨rfl, hf, rfl⟩)), h2, hs⟩

lemma raceInv_swap (t1 t2 : String) (c0 : ℕ) (s : Store) (p1 p2 : List Act)
    (h : RaceInv t1 t2 c0 s p1 p2) : RaceInv t2 t1 c0 s p2 p1 := by
  obtain ⟨k1, k2, h1, h2, hs⟩ := h
  refine ⟨k2, k1, h2, h1, ?_⟩
  rw [hs]
  congr 1
  omega

lemma raceInv_step_right (t1 t2 : String) (c0 : ℕ) (hne : t1 ≠ t2)
    (s : Store) (p1 p2 : List Act) (h : RaceInv t1 t2 c0 s p1 p2) :
    RaceInv t1 t2 c0 (threadStep s p2).1 p1 (threadStep s p2).2 :=
  raceInv_swap t2 t1 c0 _ _ _
    (raceInv_step_left t2 t1 c0 (Ne.symm hne) s p2 p1
      (raceInv_swap t1 t2 c0 s p1 p2 h))

lemma exec_raceInv (t1 t2 : String) (c0 : ℕ) (hne : t1 ≠ t2) :
    ∀ (sched : List Bool) (s : Store) (p1 p2 : List Act),
      RaceInv t1 t2 c0 s p1 p2 →
      RaceInv t1 t2 c0 (exec s p1 p2 sched).1
        (exec s p1 p2 sched).2.1 (exec s p1 p2 sched).2.2 := by
  intro sched
  induction sched with
  | nil => intro s p1 p2 h; exact h
  | cons b rest ih =>
    intro s p1 p2 h
    cases b
    · exact ih _ _ _ (raceInv_step_right t1 t2 c0 hne s p1 p2 h)
    · exact ih _ _ _ (raceInv_step_left t1 t2 c0 hne s p1 p2 h)

lemma threadSt_nil {s : Store} {tid : String} {k : ℕ}
    (h : ThreadSt s tid [] k) : findTask s tid = none ∧ k = 1 := by
  rcases h with ⟨hp, _, _⟩ | ⟨hp, _, _⟩ | ⟨hp, _, _⟩ | ⟨_, hf, hk⟩
  · exact absurd hp (by simp [completeProg])
  · exact absurd hp (by simp)
  · exact absurd hp (by simp)
  · exact ⟨hf, hk⟩

/-! Run equations for the completion handlers. -/

lemma run_completeTask_index_notFound (s : Store) (tid : String) (b : Bool)
    (ht : ¬tid = "") (hf : findTask s tid = none) :
    completeTask_index s tid b = (CompleteResult.notFound, s) := by
  unfold completeTask_index
  rw [if_neg ht, hf]

lemma run_completeTask_p0_notFound (s : Store) (tid : String) (b : Bool)
    (ht : ¬tid = "") (hf : findTask s tid = none) :
    completeTask_p0 s tid b = (CompleteResult.notFound, s) := by
  unfold completeTask_p0
  rw [if_neg ht, hf]

lemma run_completeTask_index_ok (s : Store) (tid : String) (task : Task) (c : ℕ)
    (ht : ¬tid = "") (hf : findTask s tid = some task) (hs : s.stats = some c) :
    completeTask_index s tid false =
      (CompleteResult.ok (c + 1) task, removeTask (incStats s) tid) := by
  unfold completeTask_index
  rw [if_neg ht, hf]
  simp [incStats, hs]

lemma run_completeTask_p0_create (s : Store) (tid : String) (task : Task)
    (ht : ¬tid = "") (hf : findTask s tid = some task) (hs : s.stats = none) :
    completeTask_p0 s tid false =
      (CompleteResult.ok 1 task, removeTask { s with stats := some 1 } tid) := by
  unfold completeTask_p0
  rw [if_neg ht, hf, hs]
  rfl

/-! Claims. -/

/-- Claim C1 (amended): in the revisions that perform the existence check
(both index.js documents and part_000), completeTask on a taskId that
resolves to no existing task fails with the 404 NotFoundError and has no
side effects — the store, tasks and stats counter alike, is returned
unchanged, because the point-in-time lookup precedes any mutation.  The
part_001 revision performs no such lookup; see the counterexample. -/
theorem completeTask_nonexistent_no_side_effects
    (s : Store) (tid : String) (b : Bool)
    (ht : tid ≠ "") (hf : findTask s tid = none) :
    completeTask_index s tid b = (CompleteResult.notFound, s) ∧
    completeTask_p0 s tid b = (CompleteResult.notFound, s) :=
  ⟨run_completeTask_index_notFound s tid b ht hf,
   run_completeTask_p0_notFound s tid b ht hf⟩

/-- Witness for claim C1 at a concrete store and a concrete absent id. -/
theorem completeTask_nonexistent_no_side_effects_wit :
    (("ghost" : String) ≠ "" ∧ findTask ⟨[], some 5⟩ "ghost" = none) ∧
    (completeTask_index ⟨[], some 5⟩ "ghost" false =
        (CompleteResult.notFound, ⟨[], some 5⟩) ∧
      completeTask_p0 ⟨[], some 5⟩ "ghost" false =
        (CompleteResult.notFound, ⟨[], some 5⟩)) :=
  ⟨⟨by decide, by decide⟩,
   completeTask_nonexistent_no_side_effects ⟨[], some 5⟩ "ghost" false
     (by decide) (by decide)⟩

/-- Counterexample for claim C1: in the part_001 revision, completeTask
on an id that resolves to no existing task reports success and increments
the stats counter (there is no existence lookup), instead of failing with
the 404 NotFoundError and leaving the counter unchanged. -/
theorem completeTask_p1_nonexistent_increments_cex :
    completeTask_p1 ⟨[], some 5⟩ "ghost" false =
      (CompleteResult1.ok 6, ⟨[], some 6⟩) ∧
    (completeTask_p1 ⟨[], some 5⟩ "ghost" false).2.stats ≠
      (⟨[], some 5⟩ : Store).stats :=
  ⟨by decide, by decide⟩

/-- Claim C2: the counter increment of completeTask is a single atomic
gateway call (the update of completed_tasks through the server-evaluated
rpc increment, not a client-side read-modify-write), so under every
interleaving of the gateway calls of two concurrent completeTask requests
on two different existing tasks in which both requests run to completion,
both tasks end up deleted and the final counter equals its prior value
plus 2, never plus 1. -/
theorem completeTask_race_counter_plus_two
    (s : Store) (t1 t2 : String) (c0 : ℕ) (sched : List Bool)
    (hne : t1 ≠ t2)
    (h1 : (findTask s t1).isSome = true)
    (h2 : (findTask s t2).isSome = true)
    (hs : s.stats = some c0)
    (hf1 : (exec s (completeProg t1) (completeProg t2) sched).2.1 = [])
    (hf2 : (exec s (completeProg t1) (completeProg t2) sched).2.2 = []) :
    (exec s (completeProg t1) (completeProg t2) sched).1.stats = some (c0 + 2) ∧
    findTask (exec s (completeProg t1) (completeProg t2) sched).1 t1 = none ∧
    findTask (exec s (completeProg t1) (completeProg t2) sched).1 t2 = none := by
  have h0 : RaceInv t1 t2 c0 s (completeProg t1) (completeProg t2) :=
    ⟨0, 0, Or.inl ⟨rfl, h1, rfl⟩, Or.inl ⟨rfl, h2, rfl⟩, by simpa using hs⟩
  have hinv := exec_raceInv t1 t2 c0 hne sched s _ _ h0
  obtain ⟨k1, k2, ht1, ht2, hstat⟩ := hinv
  rw [hf1] at ht1
  rw [hf2] at ht2
  obtain ⟨hn1, hk1⟩ := threadSt_nil ht1
  obtain ⟨hn2, hk2⟩ := threadSt_nil ht2
  subst hk1
  subst hk2
  exact ⟨hstat, hn1, hn2⟩

/-- Witness for claim C2: two tasks and counter 5, under an alternating
schedule both requests finish and the counter ends at 7. -/
theorem completeTask_race_counter_plus_two_wit :
    (("a" : String) ≠ "b" ∧
      (findTask ⟨[⟨"a", "A", 0, [], 0⟩, ⟨"b", "B", 0, [], 1⟩], some 5⟩ "a").isSome = true ∧
      (findTask ⟨[⟨"a", "A", 0, [], 0⟩, ⟨"b", "B", 0, [], 1⟩], some 5⟩ "b").isSome = true ∧
      (Store.stats ⟨[⟨"a", "A", 0, [], 0⟩, ⟨"b", "B", 0, [], 1⟩], some 5⟩) = some 5 ∧
      (exec ⟨[⟨"a", "A", 0, [], 0⟩, ⟨"b", "B", 0, [], 1⟩], some 5⟩
        (completeProg "a") (completeProg "b")
        [true, false, true, false, true, false]).2.1 = [] ∧
      (exec ⟨[⟨"a", "A", 0, [], 0⟩, ⟨"b", "B", 0, [], 1⟩], some 5⟩
        (completeProg "a") (completeProg "b")
        [true, false, true, false, true, false]).2.2 = []) ∧
    ((exec ⟨[⟨"a", "A", 0, [], 0⟩, ⟨"b", "B", 0, [], 1⟩], some 5⟩
        (completeProg "a") (completeProg "b")
        [true, false, true, false, true, false]).1.stats = some (5 + 2) ∧
      findTask (exec ⟨[⟨"a", "A", 0, [], 0⟩, ⟨"b", "B", 0, [], 1⟩], some 5⟩
        (completeProg "a") (completeProg "b")
        [true, false, true, false, true, false]).1 "a" = none ∧
      findTask (exec ⟨[⟨"a", "A", 0, [], 0⟩, ⟨"b", "B", 0, [], 1⟩], some 5⟩
        (completeProg "a") (completeProg "b")
        [true, false, true, false, true, false]).1 "b" = none) :=
  ⟨⟨by decide, by decide, by decide, by decide, by decide, by decide⟩,
   completeTask_race_counter_plus_two
     ⟨[⟨"a", "A", 0, [], 0⟩, ⟨"b", "B", 0, [], 1⟩], some 5⟩ "a" "b" 5
     [true, false, true, false, true, false]
     (by decide) (by decide) (by decide) (by decide) (by decide) (by decide)⟩

/-- Claim C3 (amended): in both index.js documents, a successful
completeTask on an existing task id (with the stats row present) deletes
exactly that task — every task with a different id survives —, increments
the counter by exactly one and returns the new counter value together
with the task's full prior state; a second sequential completeTask on the
same id then fails with the 404 NotFoundError and leaves the store
unchanged.  The part_001 revision violates the second-call clause; see
the counterexample. -/
theorem completeTask_index_twice
    (s : Store) (tid : String) (task : Task) (c : ℕ)
    (ht : tid ≠ "") (hf : findTask s tid = some task) (hs : s.stats = some c) :
    (completeTask_index s tid false).1 = CompleteResult.ok (c + 1) task ∧
    (completeTask_index s tid false).2.stats = some (c + 1) ∧
    findTask (completeTask_index s tid false).2 tid = none ∧
    (∀ u : Task, u ∈ (completeTask_index s tid false).2.tasks ↔
      u ∈ s.tasks ∧ u.id ≠ tid) ∧
    completeTask_index (completeTask_index s tid false).2 tid false =
      (CompleteResult.notFound, (completeTask_index s tid false).2) := by
  have hrun := run_completeTask_index_ok s tid task c ht hf hs
  refine ⟨?_, ?_, ?_, ?_, ?_⟩
  · rw [hrun]
  · rw [hrun]
    show s.stats.map (· + 1) = some (c + 1)
    rw [hs]
    rfl
  · rw [hrun]
    exact findTask_removeTask_self (incStats s) tid
  · rw [hrun]
    exact fun u => mem_removeTask (incStats s) tid u
  · rw [hrun]
    exact run_completeTask_index_notFound _ tid false ht
      (findTask_removeTask_self (incStats s) tid)

/-- Witness for claim C3 at a concrete one-task store with counter 5. -/
theorem completeTask_index_twice_wit :
    (("a" : String) ≠ "" ∧
      findTask ⟨[⟨"a", "T", 0, [], 0⟩], some 5⟩ "a" = some ⟨"a", "T", 0, [], 0⟩ ∧
      (Store.stats ⟨[⟨"a", "T", 0, [], 0⟩], some 5⟩) = some 5) ∧
    ((completeTask_index ⟨[⟨"a", "T", 0, [], 0⟩], some 5⟩ "a" false).1 =
        CompleteResult.ok (5 + 1) ⟨"a", "T", 0, [], 0⟩ ∧
      (completeTask_index ⟨[⟨"a", "T", 0, [], 0⟩], some 5⟩ "a" false).2.stats =
        some (5 + 1) ∧
      findTask (completeTask_index ⟨[⟨"a", "T", 0, [], 0⟩], some 5⟩ "a" false).2 "a" =
        none ∧
      (∀ u : Task,
        u ∈ (completeTask_index ⟨[⟨"a", "T", 0, [], 0⟩], some 5⟩ "a" false).2.tasks ↔
          u ∈ (Store.tasks ⟨[⟨"a", "T", 0, [], 0⟩], some 5⟩) ∧ u.id ≠ "a") ∧
      completeTask_index
          (completeTask_index ⟨[⟨"a", "T", 0, [], 0⟩], some 5⟩ "a" false).2 "a" false =
        (CompleteResult.notFound,
          (completeTask_index ⟨[⟨"a", "T", 0, [], 0⟩], some 5⟩ "a" false).2)) :=
  ⟨⟨by decide, by decide, by decide⟩,
   completeTask_index_twice ⟨[⟨"a", "T", 0, [], 0⟩], some 5⟩ "a"
     ⟨"a", "T", 0, [], 0⟩ 5 (by decide) (by decide) (by decide)⟩

/-- Counterexample for claim C3: in the part_001 revision, after a first
completion has removed the task, a second sequential completeTask on the
same id does not fail with NotFoundError — it increments the counter
again and reports success. -/
theorem completeTask_p1_twice_cex :
    completeTask_p1 ⟨[⟨"a", "T", 0, [], 0⟩], some 5⟩ "a" false =
      (CompleteResult1.ok 6, ⟨[], some 6⟩) ∧
    completeTask_p1 ⟨[], some 6⟩ "a" false =
      (CompleteResult1.ok 7, ⟨[], some 7⟩) :=
  ⟨by decide, by decide⟩

/-- Claim C4 (amended): in the index.js documents, when the task delete
fails after the counter increment succeeded, completeTask reports the
partial failure through the generic catch-all response (HTTP 500,
"Failed to complete task"), leaving the counter incremented and the task
still present; that response is identical to the one produced by an
ordinary gateway failure of the same handler, so no distinguishable
InconsistencyError is surfaced anywhere in the code. -/
theorem completeTask_delete_failure_generic
    (s : Store) (tid : String) (task : Task) (c : ℕ)
    (ht : tid ≠ "") (hf : findTask s tid = some task) (hs : s.stats = some c) :
    completeTask_index s tid true =
      (CompleteResult.serverError "Failed to complete task", incStats s) ∧
    (incStats s).stats = some (c + 1) ∧
    findTask (incStats s) tid = some task ∧
    (completeTask_index s tid true).1 =
      (completeTask_index { tasks := s.tasks, stats := none } tid false).1 := by
  have hrun : completeTask_index s tid true =
      (CompleteResult.serverError "Failed to complete task", incStats s) := by
    unfold completeTask_index
    rw [if_neg ht, hf]
    rfl
  have hgen : completeTask_index { tasks := s.tasks, stats := none } tid false =
      (CompleteResult.serverError "Failed to complete task",
        removeTask (incStats { tasks := s.tasks, stats := none }) tid) := by
    unfold completeTask_index
    rw [if_neg ht]
    have hf' : findTask { tasks := s.tasks, stats := none } tid = some task := hf
    rw [hf']
    rfl
  refine ⟨hrun, ?_, hf, ?_⟩
  · show s.stats.map (· + 1) = some (c + 1)
    rw [hs]
    rfl
  · rw [hrun, hgen]

/-- Witness for claim C4 at a concrete one-task store with counter 5. -/
theorem completeTask_delete_failure_generic_wit :
    (("a" : String) ≠ "" ∧
      findTask ⟨[⟨"a", "T", 0, [], 0⟩], some 5⟩ "a" = some ⟨"a", "T", 0, [], 0⟩ ∧
      (Store.stats ⟨[⟨"a", "T", 0, [], 0⟩], some 5⟩) = some 5) ∧
    (completeTask_index ⟨[⟨"a", "T", 0, [], 0⟩], some 5⟩ "a" true =
        (CompleteResult.serverError "Failed to complete task",
          incStats ⟨[⟨"a", "T", 0, [], 0⟩], some 5⟩) ∧
      (incStats ⟨[⟨"a", "T", 0, [], 0⟩], some 5⟩).stats = some (5 + 1) ∧
      findTask (incStats ⟨[⟨"a", "T", 0, [], 0⟩], some 5⟩) "a" =
        some ⟨"a", "T", 0, [], 0⟩ ∧
      (completeTask_index ⟨[⟨"a", "T", 0, [], 0⟩], some 5⟩ "a" true).1 =
        (completeTask_index
          { tasks := Store.tasks ⟨[⟨"a", "T", 0, [], 0⟩], some 5⟩,
            stats := none } "a" false).1) :=
  ⟨⟨by decide, by decide, by decide⟩,
   completeTask_delete_failure_generic ⟨[⟨"a", "T", 0, [], 0⟩], some 5⟩ "a"
     ⟨"a", "T", 0, [], 0⟩ 5 (by decide) (by decide) (by decide)⟩

/-- Counterexample for claim C4: at a concrete store the claim fails —
the response to a delete failure that follows a successful increment is
the generic 500 "Failed to complete task", the very same value the
handler produces for an ordinary gateway failure (here: the stats row
being absent), so no distinguishable InconsistencyError exists; the store
is left with the counter drifted to 6 and the task still present. -/
theorem completeTask_inconsistency_cex :
    completeTask_index ⟨[⟨"a", "T", 0, [], 0⟩], some 5⟩ "a" true =
      (CompleteResult.serverError "Failed to complete task",
        ⟨[⟨"a", "T", 0, [], 0⟩], some 6⟩) ∧
    (completeTask_index ⟨[⟨"a", "T", 0, [], 0⟩], some 5⟩ "a" true).1 =
      (completeTask_index ⟨[⟨"a", "T", 0, [], 0⟩], none⟩ "a" false).1 :=
  ⟨by decide, by decide⟩

/-- Claim C5 (amended): in the part_000 revision, completeTask on an
existing task while the stats row does not yet exist succeeds — it
creates the row with completed_tasks = 1, deletes the task and reports
counter 1 with the task's prior state.  The index.js documents instead
fail generically on the missing row after deleting the task; see the
counterexample. -/
theorem completeTask_p0_lazy_stats
    (s : Store) (tid : String) (task : Task)
    (ht : tid ≠ "") (hf : findTask s tid = some task) (hs : s.stats = none) :
    (completeTask_p0 s tid false).1 = CompleteResult.ok 1 task ∧
    (completeTask_p0 s tid false).2.stats = some 1 ∧
    findTask (completeTask_p0 s tid false).2 tid = none := by
  have hrun := run_completeTask_p0_create s tid task ht hf hs
  refine ⟨?_, ?_, ?_⟩
  · rw [hrun]
  · rw [hrun]
    rfl
  · rw [hrun]
    exact findTask_removeTask_self { s with stats := some 1 } tid

/-- Witness for claim C5 at a concrete one-task store without a stats
row. -/
theorem completeTask_p0_lazy_stats_wit :
    (("a" : String) ≠ "" ∧
      findTask ⟨[⟨"a", "T", 0, [], 0⟩], none⟩ "a" = some ⟨"a", "T", 0, [], 0⟩ ∧
      (Store.stats ⟨[⟨"a", "T", 0, [], 0⟩], none⟩) = none) ∧
    ((completeTask_p0 ⟨[⟨"a", "T", 0, [], 0⟩], none⟩ "a" false).1 =
        CompleteResult.ok 1 ⟨"a", "T", 0, [], 0⟩ ∧
      (completeTask_p0 ⟨[⟨"a", "T", 0, [], 0⟩], none⟩ "a" false).2.stats = some 1 ∧
      findTask (completeTask_p0 ⟨[⟨"a", "T", 0, [], 0⟩], none⟩ "a" false).2 "a" =
        none) :=
  ⟨⟨by decide, by decide, by decide⟩,
   completeTask_p0_lazy_stats ⟨[⟨"a", "T", 0, [], 0⟩], none⟩ "a"
     ⟨"a", "T", 0, [], 0⟩ (by decide) (by decide) (by decide)⟩

/-- Counterexample for claim C5: in the index.js documents, completeTask
on an existing task with no stats row does not create the row and does
not succeed — the handler deletes the task, never creates the counter and
answers with the generic 500 response. -/
theorem completeTask_index_missing_stats_cex :
    completeTask_index ⟨[⟨"a", "T", 0, [], 0⟩], none⟩ "a" false =
      (CompleteResult.serverError "Failed to complete task", ⟨[], none⟩) := by
  decide

/-- Claim C6 (amended): in the minutes-to-seconds revision of index.js,
addTask with a non-empty title and a numeric duration given in fractional
minutes stores the duration as the integer seconds Math.round of
minutes times 60 — in particular 1.5 minutes store 90 seconds (witness).
The part_000 revision performs no unit conversion and stores parseInt of
the raw value; see the counterexample. -/
theorem addTask_v2_minutes_to_seconds
    (s : Store) (title : String) (d : ℚ) (tags : Option (List String))
    (gid : String) (now : ℕ) (ht : title ≠ "") :
    minutesToSeconds d = ⌊d * 60 + 1 / 2⌋ ∧
    (addTask_v2 s ⟨title, JSVal.num d, tags⟩ gid now).1 =
      AddResult.created
        ⟨gid, title, (minutesToSeconds d : ℚ), tags.getD ["general"], now⟩ ∧
    (⟨gid, title, (minutesToSeconds d : ℚ), tags.getD ["general"], now⟩ : Task) ∈
      (addTask_v2 s ⟨title, JSVal.num d, tags⟩ gid now).2.tasks := by
  have hcond : ¬(title = "" ∨ (JSVal.num d : JSVal) = JSVal.undef) := by
    rintro (h | h)
    · exact ht h
    · exact JSVal.noConfusion h
  unfold addTask_v2
  rw [if_neg hcond]
  exact ⟨minutesToSeconds_eq_floor d, rfl, List.mem_cons_self _ _⟩

/-- Witness for claim C6: addTask with duration 1.5 minutes stores 90
seconds. -/
theorem addTask_v2_minutes_to_seconds_wit :
    (("T" : String) ≠ "" ∧ (minutesToSeconds (mkRat 3 2) : ℚ) = 90) ∧
    (minutesToSeconds (mkRat 3 2) = ⌊(mkRat 3 2 : ℚ) * 60 + 1 / 2⌋ ∧
      (addTask_v2 ⟨[], some 0⟩ ⟨"T", JSVal.num (mkRat 3 2), none⟩ "id1" 7).1 =
        AddResult.created
          ⟨"id1", "T", (minutesToSeconds (mkRat 3 2) : ℚ), ["general"], 7⟩ ∧
      (⟨"id1", "T", (minutesToSeconds (mkRat 3 2) : ℚ), ["general"], 7⟩ : Task) ∈
        (addTask_v2 ⟨[], some 0⟩ ⟨"T", JSVal.num (mkRat 3 2), none⟩ "id1" 7).2.tasks) :=
  ⟨⟨by decide, by decide⟩,
   addTask_v2_minutes_to_seconds ⟨[], some 0⟩ "T" (mkRat 3 2) none "id1" 7
     (by decide)⟩

/-- Counterexample for claim C6: in part_000, addTask with duration 1.5
stores parseInt 1.5 = 1, not the 90 seconds the claim prescribes. -/
theorem addTask_p0_no_conversion_cex :
    (addTask_p0 ⟨[], some 0⟩ ⟨"T", JSVal.num (mkRat 3 2), none⟩ "id1" 0).1 =
      AddResult.created ⟨"id1", "T", 1, ["general"], 0⟩ ∧
    (addTask_p0 ⟨[], some 0⟩ ⟨"T", JSVal.num (mkRat 3 2), none⟩ "id1" 0).1 ≠
      AddResult.created ⟨"id1", "T", 90, ["general"], 0⟩ :=
  ⟨by decide, by decide⟩

/-- Claim C7 (amended): when the tags field is omitted every revision
persists ["general"]; a supplied non-empty list is stored as given in
every revision; but a supplied empty list is normalized to ["general"]
only in part_000 (and part_001) — the index.js documents store the empty
list as is, because their destructuring default applies only to an absent
field (see the counterexample). -/
theorem addTask_tags_defaulting
    (s : Store) (title : String) (d : ℚ) (l : List String)
    (gid : String) (now : ℕ)
    (ht : title ≠ "") (hd : d ≠ 0) (hl : l ≠ []) :
    (addTask_p0 s ⟨title, JSVal.num d, none⟩ gid now).1 =
      AddResult.created ⟨gid, title, (jsTrunc d : ℚ), ["general"], now⟩ ∧
    (addTask_p0 s ⟨title, JSVal.num d, some []⟩ gid now).1 =
      AddResult.created ⟨gid, title, (jsTrunc d : ℚ), ["general"], now⟩ ∧
    (addTask_p0 s ⟨title, JSVal.num d, some l⟩ gid now).1 =
      AddResult.created ⟨gid, title, (jsTrunc d : ℚ), l, now⟩ ∧
    (addTask_revA s ⟨title, JSVal.num d, none⟩ gid now).1 =
      AddResult.created ⟨gid, title, d, ["general"], now⟩ ∧
    (addTask_revA s ⟨title, JSVal.num d, some l⟩ gid now).1 =
      AddResult.created ⟨gid, title, d, l, now⟩ := by
  have hcond : ∀ v : JSVal, v = JSVal.num d →
      ¬(title = "" ∨ JSVal.truthy v = false) := by
    rintro v rfl (h | h)
    · exact ht h
    · rw [JSVal.truthy] at h
      simp [hd] at h
  have hle : l.isEmpty = false := by
    cases l with
    | nil => exact absurd rfl hl
    | cons a t => rfl
  refine ⟨?_, ?_, ?_, ?_, ?_⟩
  · unfold addTask_p0
    rw [if_neg (hcond _ rfl)]
    rfl
  · unfold addTask_p0
    rw [if_neg (hcond _ rfl)]
    rfl
  · unfold addTask_p0
    rw [if_neg (hcond _ rfl)]
    simp only [hle]
    rfl
  · unfold addTask_revA
    rw [if_neg (hcond _ rfl)]
    rfl
  · unfold addTask_revA
    rw [if_neg (hcond _ rfl)]
    rfl

/-- Witness for claim C7 at concrete title, duration and tag list. -/
theorem addTask_tags_defaulting_wit :
    (("T" : String) ≠ "" ∧ (5 : ℚ) ≠ 0 ∧ (["x"] : List String) ≠ []) ∧
    ((addTask_p0 ⟨[], some 0⟩ ⟨"T", JSVal.num 5, none⟩ "id1" 0).1 =
        AddResult.created ⟨"id1", "T", (jsTrunc 5 : ℚ), ["general"], 0⟩ ∧
      (addTask_p0 ⟨[], some 0⟩ ⟨"T", JSVal.num 5, some []⟩ "id1" 0).1 =
        AddResult.created ⟨"id1", "T", (jsTrunc 5 : ℚ), ["general"], 0⟩ ∧
      (addTask_p0 ⟨[], some 0⟩ ⟨"T", JSVal.num 5, some ["x"]⟩ "id1" 0).1 =
        AddResult.created ⟨"id1", "T", (jsTrunc 5 : ℚ), ["x"], 0⟩ ∧
      (addTask_revA ⟨[], some 0⟩ ⟨"T", JSVal.num 5, none⟩ "id1" 0).1 =
        AddResult.created ⟨"id1", "T", 5, ["general"], 0⟩ ∧
      (addTask_revA ⟨[], some 0⟩ ⟨"T", JSVal.num 5, some ["x"]⟩ "id1" 0).1 =
        AddResult.created ⟨"id1", "T", 5, ["x"], 0⟩) :=
  ⟨⟨by decide, by decide, by decide⟩,
   addTask_tags_defaulting ⟨[], some 0⟩ "T" 5 ["x"] "id1" 0
     (by decide) (by decide) (by decide)⟩

/-- Counterexample for claim C7: in both index.js documents a supplied
empty tags list is persisted as the empty list, not as ["general"]. -/
theorem addTask_index_empty_tags_cex :
    (addTask_revA ⟨[], some 0⟩ ⟨"T", JSVal.num 5, some []⟩ "id1" 0).1 =
      AddResult.created ⟨"id1", "T", 5, [], 0⟩ ∧
    (addTask_v2 ⟨[], some 0⟩ ⟨"T", JSVal.num 5, some []⟩ "id1" 0).1 =
      AddResult.created ⟨"id1", "T", 300, [], 0⟩ ∧
    (addTask_revA ⟨[], some 0⟩ ⟨"T", JSVal.num 5, some []⟩ "id1" 0).1 ≠
      AddResult.created ⟨"id1", "T", 5, ["general"], 0⟩ :=
  ⟨by decide, by decide, by decide⟩

/-- Claim C8 (amended): in the part_000 revision, deleteTask on an id
that resolves to no existing task — in particular one already deleted —
fails with the 404 NotFoundError and changes nothing, and on an existing
id it removes exactly that task and reports the removed task.  The
part_001 revision performs no existence check and reports success even
for an absent id; see the counterexample. -/
theorem deleteTask_p0_contract
    (s1 s2 : Store) (id1 id2 : String) (task : Task)
    (h1 : findTask s1 id1 = none) (h2 : findTask s2 id2 = some task) :
    deleteTask_p0 s1 id1 = (DeleteResult.notFound, s1) ∧
    (deleteTask_p0 s2 id2).1 = DeleteResult.ok task ∧
    findTask (deleteTask_p0 s2 id2).2 id2 = none ∧
    (∀ u : Task, u ∈ (deleteTask_p0 s2 id2).2.tasks ↔
      u ∈ s2.tasks ∧ u.id ≠ id2) := by
  have hrun2 : deleteTask_p0 s2 id2 = (DeleteResult.ok task, removeTask s2 id2) := by
    unfold deleteTask_p0
    rw [h2]
  refine ⟨?_, ?_, ?_, ?_⟩
  · unfold deleteTask_p0
    rw [h1]
  · rw [hrun2]
  · rw [hrun2]
    exact findTask_removeTask_self s2 id2
  · rw [hrun2]
    exact fun u => mem_removeTask s2 id2 u

/-- Witness for claim C8 at concrete stores: one lookup misses, one
finds the task. -/
theorem deleteTask_p0_contract_wit :
    (findTask ⟨[], none⟩ "ghost" = none ∧
      findTask ⟨[⟨"a", "T", 0, [], 0⟩], some 0⟩ "a" = some ⟨"a", "T", 0, [], 0⟩) ∧
    (deleteTask_p0 ⟨[], none⟩ "ghost" = (DeleteResult.notFound, ⟨[], none⟩) ∧
      (deleteTask_p0 ⟨[⟨"a", "T", 0, [], 0⟩], some 0⟩ "a").1 =
        DeleteResult.ok ⟨"a", "T", 0, [], 0⟩ ∧
      findTask (deleteTask_p0 ⟨[⟨"a", "T", 0, [], 0⟩], some 0⟩ "a").2 "a" = none ∧
      (∀ u : Task,
        u ∈ (deleteTask_p0 ⟨[⟨"a", "T", 0, [], 0⟩], some 0⟩ "a").2.tasks ↔
          u ∈ (Store.tasks ⟨[⟨"a", "T", 0, [], 0⟩], some 0⟩) ∧ u.id ≠ "a")) :=
  ⟨⟨by decide, by decide⟩,
   deleteTask_p0_contract ⟨[], none⟩ ⟨[⟨"a", "T", 0, [], 0⟩], some 0⟩
     "ghost" "a" ⟨"a", "T", 0, [], 0⟩ (by decide) (by decide)⟩

/-- Counterexample for claim C8: in the part_001 revision, deleteTask on
an id that resolves to no task — the store is empty — reports the
success message, a silent success instead of the claimed NotFoundError. -/
theorem deleteTask_p1_silent_success_cex :
    deleteTask_p1 ⟨[], some 5⟩ "ghost" = (DeleteResult1.ok, ⟨[], some 5⟩) ∧
    findTask ⟨[], some 5⟩ "ghost" = none :=
  ⟨by decide, by decide⟩

/-- Claim C9 (code bug): when no stats record exists, getStats does not
lazily create it at zero — the single-row select yields the no-row error,
which is thrown before the null-data branch that would create the record,
so the handler answers with the generic 500 and persists nothing; the
lazy-creation branch of part_000 is dead code.  When the record exists,
the handler does return it without mutating the store. -/
theorem getStats_missing_row_fails :
    getStats_p0 ⟨[], none⟩ =
      (StatsResult.serverError "Failed to fetch stats", ⟨[], none⟩) ∧
    getStats_p1 ⟨[], none⟩ =
      (StatsResult.serverError "Failed to fetch stats", ⟨[], none⟩) ∧
    getStats_p0 ⟨[], some 7⟩ = (StatsResult.ok 7, ⟨[], some 7⟩) :=
  ⟨by decide, by decide, by decide⟩

/-- Claim C10: the revisions that validate presence with a truthiness
check — revA, part_000 and part_001 — reject a duration that is the
number 0 (and falsy-equivalent values such as the empty string) with the
400 validation response before any gateway write, leaving the store
untouched, while the minutes-to-seconds revision, which only tests for an
undefined duration, accepts 0 and stores 0 seconds. -/
theorem addTask_zero_duration_validation
    (s : Store) (title gid : String) (now : ℕ) (ht : title ≠ "") :
    addTask_revA s ⟨title, JSVal.num 0, none⟩ gid now = (AddResult.badRequest, s) ∧
    addTask_revA s ⟨title, JSVal.str "", none⟩ gid now = (AddResult.badRequest, s) ∧
    addTask_p0 s ⟨title, JSVal.num 0, none⟩ gid now = (AddResult.badRequest, s) ∧
    addTask_p1 s ⟨title, JSVal.num 0, none⟩ gid now = (AddResult.badRequest, s) ∧
    (addTask_v2 s ⟨title, JSVal.num 0, none⟩ gid now).1 =
      AddResult.created ⟨gid, title, 0, ["general"], now⟩ := by
  have hnum : JSVal.truthy (JSVal.num 0) = false := by decide
  have hstr : JSVal.truthy (JSVal.str "") = false := by decide
  have hcondv2 : ¬(title = "" ∨ (JSVal.num 0 : JSVal) = JSVal.undef) := by
    rintro (h | h)
    · exact ht h
    · exact JSVal.noConfusion h
  refine ⟨?_, ?_, ?_, ?_, ?_⟩
  · unfold addTask_revA
    rw [if_pos (Or.inr hnum)]
  · unfold addTask_revA
    rw [if_pos (Or.inr hstr)]
  · unfold addTask_p0
    rw [if_pos (Or.inr hnum)]
  · unfold addTask_p1
    rw [if_pos (Or.inr hnum)]
  · unfold addTask_v2
    rw [if_neg hcondv2]
    have h0 : ((minutesToSeconds (JSVal.num 0).toNumber : ℤ) : ℚ) = 0 := by decide
    simp only [h0]
    rfl

/-- Witness for claim C10 at concrete title and store. -/
theorem addTask_zero_duration_validation_wit :
    (("T" : String) ≠ "") ∧
    (addTask_revA ⟨[], some 0⟩ ⟨"T", JSVal.num 0, none⟩ "g" 0 =
        (AddResult.badRequest, ⟨[], some 0⟩) ∧
      addTask_revA ⟨[], some 0⟩ ⟨"T", JSVal.str "", none⟩ "g" 0 =
        (AddResult.badRequest, ⟨[], some 0⟩) ∧
      addTask_p0 ⟨[], some 0⟩ ⟨"T", JSVal.num 0, none⟩ "g" 0 =
        (AddResult.badRequest, ⟨[], some 0⟩) ∧
      addTask_p1 ⟨[], some 0⟩ ⟨"T", JSVal.num 0, none⟩ "g" 0 =
        (AddResult.badRequest, ⟨[], some 0⟩) ∧
      (addTask_v2 ⟨[], some 0⟩ ⟨"T", JSVal.num 0, none⟩ "g" 0).1 =
        AddResult.created ⟨"g", "T", 0, ["general"], 0⟩) :=
  ⟨by decide,
   addTask_zero_duration_validation ⟨[], some 0⟩ "T" "g" 0 (by decide)⟩

end BagOfTasks
